import Mathlib

/-!
Verification development for the ski-clock-neo dashboard's device fleet
state engine: the version comparator, heartbeat health derivation, MQTT
message handlers and the OTA update session state machine, translated as a
shallow embedding from `src/dashboard/app.py`, `src/dashboard/models.py`
and `src/dashboard/mqtt_subscriber.py`.

Conventions of the embedding:
- timestamps are integers counting milliseconds (Python `datetime` values
  become `Int` instants; `timedelta(minutes=5)` becomes `300000`, etc.);
- Python `None` becomes `Option.none`; a JSON payload becomes a record of
  `Option` fields, one per `payload.get` key;
- database tables become Lean lists; SQLAlchemy row mutation followed by
  commit becomes a pure list update;
- `client.publish` becomes appending to an `outbox` list.
-/

namespace SkiClock

/-- Python `s.split(sep)` for a one-character separator, over char lists.
Matches CPython semantics: the empty string yields one empty field, and a
trailing separator yields a trailing empty field. -/
def splitChars (sep : Char) : List Char → List (List Char)
  | [] => [[]]
  | c :: rest =>
    let r := splitChars sep rest
    if c = sep then [] :: r
    else
      match r with
      | [] => [[c]]
      | h :: t => (c :: h) :: t

/-- Python `s.split(sep)` on strings (used for `topic.split('/')` and
`version_str.split('.')`). -/
def splitOnSep (sep : Char) (s : String) : List String :=
  (splitChars sep s.toList).map (fun cs => String.mk cs)

/-- Numeric value of an ASCII digit character. -/
def digitVal (c : Char) : Nat := c.toNat - 48

/-- Tail of a CPython integer literal: digits with single underscores
allowed between digits (no leading, trailing or doubled underscore). -/
def pyDigitsAux : Nat → List Char → Option Nat
  | acc, [] => some acc
  | acc, '_' :: c :: rest =>
    if c.isDigit then pyDigitsAux (acc * 10 + digitVal c) rest else none
  | acc, c :: rest =>
    if c.isDigit then pyDigitsAux (acc * 10 + digitVal c) rest else none

/-- A nonempty digit run with single underscores between digits. -/
def pyDigits : List Char → Option Nat
  | [] => none
  | c :: rest => if c.isDigit then pyDigitsAux (digitVal c) rest else none

/-- CPython `int(s)` over ASCII strings: optional surrounding whitespace,
an optional sign, then a nonempty digit run (single underscores permitted
between digits). `none` models `int()` raising `ValueError`. -/
def pyInt (s : String) : Option Int :=
  let t := s.toList.dropWhile (fun c => c.isWhitespace)
  let t := (t.reverse.dropWhile (fun c => c.isWhitespace)).reverse
  match t with
  | '-' :: rest => (pyDigits rest).map (fun n => -(n : Int))
  | '+' :: rest => (pyDigits rest).map (fun n => (n : Int))
  | rest => (pyDigits rest).map (fun n => (n : Int))

/-- The `version_str.startswith('v') or version_str.startswith('V')`
strip from `parse_version` in `src/dashboard/app.py` (`startswith` on a
one-character pattern is a test of the first character; false on the
empty string). -/
def vStripCode (l : List Char) : List Char :=
  if l.headD ' ' = 'v' then l.tail
  else if l.headD ' ' = 'V' then l.tail
  else l

/-- Semantic-versioning arm of `parse_version`: `int(parts[i]) if
len(parts) > i else 0` for the first three components, combined as
`major*1000000 + minor*1000 + patch`. -/
def semOrdinalCode (parts : List String) : Option Int :=
  (if parts.length > 0 then pyInt (parts.getD 0 "") else some 0).bind fun major =>
    (if parts.length > 1 then pyInt (parts.getD 1 "") else some 0).bind fun minor =>
      (if parts.length > 2 then pyInt (parts.getD 2 "") else some 0).bind fun patch =>
        some (major * 1000000 + minor * 1000 + patch)

/-- Timestamp-versioning arm of `parse_version`:
`(year-2025)*100000000 + month*1000000 + day*10000 + build`. -/
def tsOrdinalCode (parts : List String) : Option Int :=
  (pyInt (parts.getD 0 "")).bind fun year =>
    (pyInt (parts.getD 1 "")).bind fun month =>
      (pyInt (parts.getD 2 "")).bind fun day =>
        (pyInt (parts.getD 3 "")).bind fun build =>
          some ((year - 2025) * 100000000 + month * 1000000 + day * 10000 + build)

/-- `parse_version` from `src/dashboard/app.py`: strip one optional
leading `v`/`V`, split on `.`; a result of exactly four components is
parsed as timestamp versioning, anything else as semantic versioning.
`none` models the `ValueError` the Python function raises on a
non-numeric component. -/
def parse_version (s : String) : Option Int :=
  let parts := (splitChars '.' (vStripCode s.toList)).map (fun l => String.mk l)
  if parts.length ≠ 4 then semOrdinalCode parts else tsOrdinalCode parts

/-- The specification's strip step, from its words: "strip one optional
leading `v`/`V`". -/
def vStripSpec (l : List Char) : List Char :=
  if l.headD ' ' = 'v' ∨ l.headD ' ' = 'V' then l.tail else l

/-- The specification's semantic-versioning ordinal: "up to three
components (missing components default to 0):
`ordinal = major * 1e6 + minor * 1e3 + patch`". -/
def semOrdinalSpec (comps : List String) : Option Int :=
  (match comps.get? 0 with | some p => pyInt p | none => some (0 : Int)).bind fun major =>
    (match comps.get? 1 with | some p => pyInt p | none => some (0 : Int)).bind fun minor =>
      (match comps.get? 2 with | some p => pyInt p | none => some (0 : Int)).bind fun patch =>
        some (major * 1000000 + minor * 1000 + patch)

/-- The specification's timestamp-versioning ordinal:
"`ordinal = (year - BASELINE_YEAR) * 1e8 + month * 1e6 + day * 1e4 +
build`, where `BASELINE_YEAR` is a fixed constant (2025)". -/
def tsOrdinalSpec (comps : List String) : Option Int :=
  (pyInt (comps.getD 0 "")).bind fun year =>
    (pyInt (comps.getD 1 "")).bind fun month =>
      (pyInt (comps.getD 2 "")).bind fun day =>
        (pyInt (comps.getD 3 "")).bind fun build =>
          some ((year - 2025) * 100000000 + month * 1000000 + day * 10000 + build)

/-- VersionComparator parse written from the specification's words (spec
section 4.1), used only to compare against `parse_version` for the
refinement claim. -/
def specParse (s : String) : Option Int :=
  let comps := (splitChars '.' (vStripSpec s.toList)).map (fun c => String.mk c)
  if comps.length = 4 then tsOrdinalSpec comps else semOrdinalSpec comps

/-- The specification's string-normalized equality normalization: strip
exactly one leading `v`/`V` and keep the rest verbatim. -/
def stripOneV (s : String) : String :=
  match s.toList with
  | [] => s
  | c :: rest => if c = 'v' ∨ c = 'V' then String.mk rest else s

/-- Python `s.lstrip('vV')`, the normalization the code applies at every
update-availability and reconciliation comparison site: strips ALL leading
`v`/`V` characters. -/
def lstripvV (s : String) : String :=
  String.mk (s.toList.dropWhile (fun c => c == 'v' || c == 'V'))

/-- Number of leading `v`/`V` characters of a string. -/
def leadingVCount (s : String) : Nat :=
  (s.toList.takeWhile (fun c => c == 'v' || c == 'V')).length

/-! ## Data model (src/dashboard/models.py)

Rows of the four tables the engine owns, restricted to the columns the
engine reads or writes. Opaque JSON blobs the engine stores but never
inspects (device config, event data) are modelled as `String`. -/

/-- Truthiness of an optional string, as Python `if x:` sees it:
false for `None` and for the empty string. -/
def truthyS (o : Option String) : Bool :=
  match o with
  | none => false
  | some s => !(s == "")

/-- Python `a or b` on optional strings: the first operand when truthy,
otherwise the second. -/
def pyOrS (a b : Option String) : Option String :=
  if truthyS a then a else b

/-- One row dict of the new per-row display-snapshot payload format. -/
structure SnapRow where
  text : Option String := none
  cols : Option Int := none
  width : Option Int := none
  height : Option Int := none
  mono : Option String := none
  monoColor : Option (List Int) := none
  deriving DecidableEq, Repr

/-- The `rows` key of a display-snapshot payload: an integer panel count
in the legacy format, a list of row dicts in the per-row format. -/
inductive RowsField where
  | count (n : Int)
  | rowList (l : List SnapRow)
  deriving DecidableEq, Repr

/-- The `bitmap_data` JSON stored on a `DisplaySnapshot` row. -/
inductive BitmapData where
  | perRow (rows : List SnapRow)
  | legacy (mono : String) (width height : Int) (rows cols : RowsField)
      (monoColor : Option (List Int)) (color : Option String)
  deriving DecidableEq, Repr

/-- The `display_snapshot` JSON stored on a `Device` row. -/
inductive SnapshotBlob where
  | perRow (rows : List SnapRow) (timestamp : Int)
  | legacy (rows cols : RowsField) (width height : Int) (mono : String)
      (monoColor : Option (List Int)) (color : Option String) (timestamp : Int)
  deriving DecidableEq, Repr

/-- A row of the `devices` table (`class Device`). -/
structure Device where
  device_id : String
  product : String
  board_type : String
  firmware_version : String
  first_seen : Int
  last_seen : Int
  last_uptime : Int := 0
  last_rssi : Int := 0
  last_free_heap : Int := 0
  ssid : Option String := none
  ip_address : Option String := none
  display_snapshot : Option SnapshotBlob := none
  pinned_firmware_version : Option String := none
  supported_commands : Option (List String) := none
  last_config : Option String := none
  last_info_at : Option Int := none
  deleted_at : Option Int := none
  deriving DecidableEq, Repr

/-- A row of the `heartbeat_history` table (`class HeartbeatHistory`). -/
structure HeartbeatRecord where
  device_id : String
  timestamp : Int
  rssi : Option Int := none
  uptime : Option Int := none
  free_heap : Option Int := none
  deriving DecidableEq, Repr

/-- The `event_data` JSON of an `EventLog` row, as each handler builds it. -/
inductive EventData where
  | heartbeat (version : String) (rssi uptime free_heap : Option Int)
      (ssid : Option String)
  | deviceInfo (product board : String) (version : Option String)
      (config : Option String) (supported_commands : Option (List String))
  | deviceEvent (blob : Option String)
  deriving DecidableEq, Repr

/-- A row of the `event_logs` table (`class EventLog`). -/
structure EventLogRow where
  device_id : String
  event_type : String
  event_data : EventData
  timestamp : Int
  deriving DecidableEq, Repr

/-- A row of the `ota_update_logs` table (`class OTAUpdateLog`). -/
structure OTAUpdateLog where
  session_id : String
  device_id : Option String
  product : String
  platform : String
  old_version : Option String := none
  new_version : String
  status : String := "started"
  started_at : Int
  last_progress_at : Option Int := none
  completed_at : Option Int := none
  error_message : Option String := none
  download_progress : Int := 0
  update_type : String := "ota"
  deriving DecidableEq, Repr

/-- A row of the `display_snapshots` table (`class DisplaySnapshot`). -/
structure DisplaySnapshotRow where
  device_id : String
  row_text : List String
  bitmap_data : BitmapData
  timestamp : Int
  deriving DecidableEq, Repr

/-- An outbound version-response publish
(`norrtek-iot/{env}/version/response/{device_id}`). -/
structure VersionResponse where
  topic : String
  latest_version : String
  current_version : String
  product : String
  platform : String
  session_id : String
  subscriber_id : String
  pinned : Bool
  deriving DecidableEq, Repr

/-- The engine's durable and outbound state: the four owned tables plus
display snapshots and the MQTT outbox. -/
structure DashState where
  devices : List Device := []
  heartbeats : List HeartbeatRecord := []
  sessions : List OTAUpdateLog := []
  events : List EventLogRow := []
  snapshots : List DisplaySnapshotRow := []
  outbox : List VersionResponse := []
  deriving DecidableEq, Repr

/-- Ambient inputs of one handler invocation: the wall clock, the fresh
UUID the call would draw, the subscriber identity, and the engine's
external collaborators (IP validator, base64 decoder, firmware catalog). -/
structure EngineEnv where
  now : Int
  genSid : String
  subscriberId : String
  validIp : String → Option String
  b64ok : String → Option Nat
  hasSpecificFw : String → String → String → Bool
  getTargetFw : String → String → Option String

/-- An inbound JSON payload: one optional field per `payload.get` key any
handler reads. `etype` embeds the `type` key of event payloads. -/
structure Payload where
  product : Option String := none
  board : Option String := none
  version : Option String := none
  rssi : Option Int := none
  uptime : Option Int := none
  free_heap : Option Int := none
  ssid : Option String := none
  ip : Option String := none
  environment : Option String := none
  config : Option String := none
  supported_commands : Option (List String) := none
  session_id : Option String := none
  platform : Option String := none
  old_version : Option String := none
  new_version : Option String := none
  progress : Option Int := none
  status : Option String := none
  success : Option Bool := none
  error : Option String := none
  error_message : Option String := none
  etype : Option String := none
  data : Option String := none
  offset_ms : Option Int := none
  rows : Option RowsField := none
  cols : Option Int := none
  width : Option Int := none
  height : Option Int := none
  mono : Option String := none
  monoColor : Option (List Int) := none
  color : Option String := none
  pixels : Option String := none
  row_text : Option (List String) := none
  deriving DecidableEq, Repr

/-- `BOARD_TYPE_TO_PLATFORM` from `src/dashboard/mqtt_subscriber.py`:
the fixed six-entry board-to-platform table. -/
def BOARD_TYPE_TO_PLATFORM (b : String) : Option String :=
  if b = "ESP32" then some "esp32"
  else if b = "ESP32-C3" then some "esp32c3"
  else if b = "ESP32-S3" then some "esp32s3"
  else if b = "ESP-12F" then some "esp12f"
  else if b = "ESP-01" then some "esp01"
  else if b = "Wemos D1 Mini" then some "d1mini"
  else none

/-! ## Message handlers (src/dashboard/mqtt_subscriber.py) -/

/-- Staleness of `last_progress_at` against a threshold instant:
holds when no progress was ever received or the last progress is older
than the threshold. -/
def progressStale (threshold : Int) : Option Int → Prop
  | none => True
  | some lp => lp < threshold

instance (threshold : Int) (o : Option Int) : Decidable (progressStale threshold o) :=
  match o with
  | none => isTrue trivial
  | some lp => inferInstanceAs (Decidable (lp < threshold))

/-- Whether an OTA session is still in flight
(`status.in_(['started', 'downloading'])`). -/
def isInflight (s : OTAUpdateLog) : Prop :=
  s.status = "started" ∨ s.status = "downloading"

instance (s : OTAUpdateLog) : Decidable (isInflight s) := by
  unfold isInflight; infer_instance

/-- The error message `handle_heartbeat` records when it fails a stuck
session on version mismatch after the inactivity threshold. -/
def heartbeatMismatchMsg (effective expected : String) : String :=
  "Heartbeat shows version " ++ effective ++ " instead of expected " ++
    expected ++ " after 5+ minutes of inactivity (resolved via heartbeat)"

/-- Resolution of one stuck session during heartbeat reconciliation
(the body of the `for stuck_ota in stuck_otas` loop): success when the
normalized versions match; failure when they differ and the session has
been inactive past the 5-minute threshold; otherwise untouched. -/
def resolveStuckOne (now : Int) (effective_version : String)
    (s : OTAUpdateLog) : OTAUpdateLog :=
  let timeout_threshold := now - 300000
  if lstripvV effective_version = lstripvV s.new_version then
    { s with
      status := "success",
      completed_at := some now,
      download_progress := 100 }
  else if s.started_at < timeout_threshold ∧
      progressStale timeout_threshold s.last_progress_at then
    { s with
      status := "failed",
      completed_at := some now,
      error_message := some (heartbeatMismatchMsg effective_version s.new_version) }
  else s

/-- The part of `handle_heartbeat` after the device upsert: heartbeat
history append, heartbeat event append, 24-hour history cleanup, stuck-OTA
reconciliation, and firmware targeting with an optional version-response
publish. `device` is the row as mutated/created by the upsert, and `st`
already carries the upserted `devices` table. -/
def heartbeatTail (env : EngineEnv) (environment device_id : String)
    (board_type current_version product : Option String) (p : Payload)
    (device : Device) (st : DashState) : DashState :=
  let effective_product := if truthyS product then product.getD "" else device.product
  let effective_board := if truthyS board_type then board_type.getD "" else device.board_type
  let effective_version :=
    if truthyS current_version then current_version.getD "" else device.firmware_version
  let heartbeat_log : HeartbeatRecord :=
    { device_id := device_id, timestamp := env.now, rssi := p.rssi,
      uptime := p.uptime, free_heap := p.free_heap }
  let heartbeat_event : EventLogRow :=
    { device_id := device_id, event_type := "heartbeat",
      event_data := EventData.heartbeat effective_version p.rssi p.uptime
        p.free_heap p.ssid,
      timestamp := env.now }
  let cleanup_threshold := env.now - 86400000
  let heartbeats1 := (st.heartbeats ++ [heartbeat_log]).filter
    (fun h => decide (¬(h.device_id = device_id ∧ h.timestamp < cleanup_threshold)))
  let events1 := st.events ++ [heartbeat_event]
  let sessions1 :=
    if effective_version ≠ "" then
      st.sessions.map (fun s =>
        if s.device_id = some device_id ∧ isInflight s then
          resolveStuckOne env.now effective_version s
        else s)
    else st.sessions
  let outbox1 :=
    match BOARD_TYPE_TO_PLATFORM effective_board with
    | none => st.outbox
    | some platform =>
      let pinned_version := device.pinned_firmware_version
      let target_version : Option String :=
        if truthyS pinned_version then
          if env.hasSpecificFw effective_product platform (pinned_version.getD "") then
            pinned_version
          else
            env.getTargetFw platform effective_product
        else
          env.getTargetFw platform effective_product
      if truthyS target_version ∧ effective_version ≠ "" then
        if lstripvV (target_version.getD "") ≠ lstripvV effective_version then
          st.outbox ++
            [{ topic := "norrtek-iot/" ++ environment ++ "/version/response/" ++ device_id,
               latest_version := target_version.getD "",
               current_version := effective_version,
               product := effective_product,
               platform := platform,
               session_id := env.genSid,
               subscriber_id := env.subscriberId,
               pinned := pinned_version ≠ none }]
        else st.outbox
      else st.outbox
  { st with
    heartbeats := heartbeats1,
    events := events1,
    sessions := sessions1,
    outbox := outbox1 }

/-- `handle_heartbeat`: updates telemetry for a known (or
legacy-registered) device, records history and an event, prunes history
older than 24 hours, reconciles stuck OTA sessions against the reported
version, and performs firmware targeting. Messages with a malformed
topic, an environment token outside dev/prod, or an unknown device
without legacy identity fields are dropped with no state change. -/
def handle_heartbeat (env : EngineEnv) (topic : String) (p : Payload)
    (st : DashState) : DashState :=
  let parts := splitOnSep '/' topic
  if parts.length < 4 then st
  else
    let environment := parts.getD 1 ""
    let device_id := parts.getD 3 ""
    if ¬(environment = "dev" ∨ environment = "prod") then st
    else
      let board_type := p.board
      let current_version := p.version
      let product := p.product
      if device_id = "" then st
      else
        match st.devices.find? (fun d => d.device_id == device_id) with
        | some d0 =>
          let d1 : Device :=
            { d0 with
              deleted_at := none,
              last_seen := env.now,
              last_uptime := p.uptime.getD 0,
              last_rssi := p.rssi.getD 0,
              last_free_heap := p.free_heap.getD 0,
              ssid := p.ssid,
              ip_address := p.ip.bind env.validIp,
              board_type := if truthyS board_type then board_type.getD "" else d0.board_type,
              firmware_version :=
                if truthyS current_version then current_version.getD "" else d0.firmware_version,
              product := if truthyS product then product.getD "" else d0.product }
          heartbeatTail env environment device_id board_type current_version product p d1
            { st with
              devices := st.devices.map
                (fun d => if d.device_id = device_id then d1 else d) }
        | none =>
          if truthyS product && truthyS board_type then
            let d1 : Device :=
              { device_id := device_id,
                product := product.getD "",
                board_type := board_type.getD "",
                firmware_version :=
                  if truthyS current_version then current_version.getD "" else "Unknown",
                first_seen := env.now,
                last_seen := env.now,
                last_uptime := p.uptime.getD 0,
                last_rssi := p.rssi.getD 0,
                last_free_heap := p.free_heap.getD 0,
                ssid := p.ssid,
                ip_address := p.ip.bind env.validIp }
            heartbeatTail env environment device_id board_type current_version product p d1
              { st with devices := st.devices ++ [d1] }
          else st

/-- `handle_device_info`: updates static device data and capabilities,
creating or restoring the device as needed, and records a device_info
event. Messages with malformed topics, invalid environment tokens, or
missing product/board fields are dropped with no state change. -/
def handle_device_info (env : EngineEnv) (topic : String) (p : Payload)
    (st : DashState) : DashState :=
  let parts := splitOnSep '/' topic
  if parts.length < 4 then st
  else
    let environment := parts.getD 1 ""
    let device_id := parts.getD 3 ""
    if ¬(environment = "dev" ∨ environment = "prod") then st
    else
      let product := p.product
      let board_type := p.board
      let version := p.version
      if ¬(truthyS product && truthyS board_type) then st
      else if device_id = "" then st
      else
        let devices1 :=
          match st.devices.find? (fun d => d.device_id == device_id) with
          | some _ =>
            st.devices.map (fun d =>
              if d.device_id = device_id then
                { d with
                  deleted_at := none,
                  product := product.getD "",
                  board_type := board_type.getD "",
                  firmware_version :=
                    if truthyS version then version.getD "" else d.firmware_version,
                  last_info_at := some env.now,
                  last_seen := env.now,
                  supported_commands :=
                    if p.supported_commands ≠ none then p.supported_commands
                    else d.supported_commands,
                  last_config :=
                    if p.config ≠ none then p.config else d.last_config }
              else d)
          | none =>
            st.devices ++
              [{ device_id := device_id,
                 product := product.getD "",
                 board_type := board_type.getD "",
                 firmware_version :=
                   if truthyS version then version.getD "" else "Unknown",
                 first_seen := env.now,
                 last_seen := env.now,
                 last_info_at := some env.now,
                 supported_commands := p.supported_commands,
                 last_config := p.config }]
        let info_event : EventLogRow :=
          { device_id := device_id, event_type := "device_info",
            event_data := EventData.deviceInfo (product.getD "") (board_type.getD "")
              version p.config p.supported_commands,
            timestamp := env.now }
        { st with devices := devices1, events := st.events ++ [info_event] }

/-- `OTAUpdateLog.query.filter_by(session_id=...).first()`. -/
def findBySession (sid : String) (ss : List OTAUpdateLog) : Option OTAUpdateLog :=
  ss.find? (fun s => s.session_id == sid)

/-- The recency fallback of the progress/complete handlers:
the most recently started in-flight session of the device
(`filter(device_id, status.in_(...)).order_by(started_at.desc()).first()`). -/
def mostRecentInflight (device_id : String) (ss : List OTAUpdateLog) :
    Option OTAUpdateLog :=
  (ss.filter (fun s => decide (s.device_id = some device_id ∧ isInflight s))).foldl
    (fun acc s =>
      match acc with
      | none => some s
      | some b => if s.started_at > b.started_at then some s else acc)
    none

/-- Session lookup shared by `handle_ota_progress` and
`handle_ota_complete`: exact `session_id` match when the payload carries a
truthy one and it resolves, otherwise the recency fallback for the topic's
device. -/
def lookupSession (sid : Option String) (device_id : String)
    (ss : List OTAUpdateLog) : Option OTAUpdateLog :=
  let log0 := if truthyS sid then findBySession (sid.getD "") ss else none
  match log0 with
  | some l => some l
  | none => if device_id ≠ "" then mostRecentInflight device_id ss else none

/-- `handle_ota_start`: forces every in-flight session of the device to
failed ("Interrupted by new OTA attempt", completion stamped), then
creates the new session with status started; the session id falls back to
a generated UUID when the payload's is absent or empty. Messages without
product, platform and new_version are dropped. -/
def handle_ota_start (env : EngineEnv) (topic : String) (p : Payload)
    (st : DashState) : DashState :=
  let parts := splitOnSep '/' topic
  if parts.length < 5 then st
  else
    let _environment := parts.getD 1 ""
    let device_id := parts.getD 4 ""
    if device_id = "" then st
    else
      let session_id := if truthyS p.session_id then p.session_id.getD "" else env.genSid
      if ¬(truthyS p.product && truthyS p.platform && truthyS p.new_version) then st
      else
        let sessions1 := st.sessions.map (fun s =>
          if s.device_id = some device_id ∧ isInflight s then
            { s with
              status := "failed",
              completed_at := some env.now,
              error_message := some "Interrupted by new OTA attempt" }
          else s)
        let newLog : OTAUpdateLog :=
          { session_id := session_id,
            device_id := some device_id,
            product := p.product.getD "",
            platform := p.platform.getD "",
            old_version := p.old_version,
            new_version := p.new_version.getD "",
            status := "started",
            started_at := env.now }
        { st with sessions := sessions1 ++ [newLog] }

/-- `handle_ota_progress`: looks the session up by exact session id
(falling back to the device's most recent in-flight session), then sets
its progress, moves it to downloading and refreshes `last_progress_at`.
No matching session means no state change. -/
def handle_ota_progress (env : EngineEnv) (topic : String) (p : Payload)
    (st : DashState) : DashState :=
  let parts := splitOnSep '/' topic
  if parts.length < 5 then st
  else
    let _environment := parts.getD 1 ""
    let device_id := parts.getD 4 ""
    if device_id = "" then st
    else
      let progress := p.progress.getD 0
      match lookupSession p.session_id device_id st.sessions with
      | none => st
      | some l =>
        { st with
          sessions := st.sessions.map (fun s =>
            if s.session_id = l.session_id then
              { s with
                download_progress := progress,
                status := "downloading",
                last_progress_at := some env.now }
            else s) }

/-- `handle_ota_complete`: determines success from the `status` string
(taking precedence) or the legacy `success` boolean, looks the session up
by exact session id (falling back to the device's most recent in-flight
session), then stamps the terminal status, completion time, progress (100
on success) and any error message. Without either status indicator, or
without a matching session, nothing changes. -/
def handle_ota_complete (env : EngineEnv) (topic : String) (p : Payload)
    (st : DashState) : DashState :=
  let parts := splitOnSep '/' topic
  if parts.length < 5 then st
  else
    let _environment := parts.getD 1 ""
    let device_id := parts.getD 4 ""
    if device_id = "" then st
    else
      let successOpt : Option Bool :=
        match p.status with
        | some str => some (str == "success")
        | none => p.success
      match successOpt with
      | none => st
      | some success =>
        let error_message := pyOrS p.error p.error_message
        match lookupSession p.session_id device_id st.sessions with
        | none => st
        | some l =>
          { st with
            sessions := st.sessions.map (fun s =>
              if s.session_id = l.session_id then
                { s with
                  status := if success then "success" else "failed",
                  completed_at := some env.now,
                  download_progress := if success then 100 else s.download_progress,
                  error_message :=
                    if truthyS error_message then error_message else s.error_message }
              else s) }

/-- Whether every row dict of a per-row snapshot carries a truthy `mono`
that base64-decodes; a failure anywhere aborts the handler before any
state is written. -/
def perRowDecodable (env : EngineEnv) (rows : List SnapRow) : Bool :=
  rows.all (fun r => truthyS r.mono && (env.b64ok (r.mono.getD "")).isSome)

/-- `handle_display_snapshot`: stores a display snapshot for a known
device in either the per-row or the legacy format, updating the device's
snapshot blob and `last_seen` and appending a `DisplaySnapshot` row.
Unknown devices, missing pixel data and base64 failures leave the state
unchanged. The environment token is extracted but never validated. -/
def handle_display_snapshot (env : EngineEnv) (topic : String) (p : Payload)
    (st : DashState) : DashState :=
  let parts := splitOnSep '/' topic
  if parts.length < 5 then st
  else
    let _environment := parts.getD 1 ""
    let device_id := parts.getD 4 ""
    if device_id = "" then st
    else
      match st.devices.find? (fun d => d.device_id == device_id) with
      | none => st
      | some _ =>
        match p.rows with
        | some (RowsField.rowList (r0 :: rs)) =>
          let rows := r0 :: rs
          if perRowDecodable env rows then
            let row_texts := rows.map (fun r => r.text.getD "")
            let devices1 := st.devices.map (fun d =>
              if d.device_id = device_id then
                { d with
                  display_snapshot := some (SnapshotBlob.perRow rows env.now),
                  last_seen := env.now }
              else d)
            let snap : DisplaySnapshotRow :=
              { device_id := device_id, row_text := row_texts,
                bitmap_data := BitmapData.perRow rows, timestamp := env.now }
            { st with devices := devices1, snapshots := st.snapshots ++ [snap] }
          else st
        | _ =>
          let mono_base64 :=
            if truthyS p.mono then p.mono.getD "" else p.pixels.getD ""
          let color_base64 := p.color
          if mono_base64 = "" ∧ ¬ truthyS color_base64 then st
          else
            let decoded :=
              if mono_base64 ≠ "" then env.b64ok mono_base64
              else env.b64ok (color_base64.getD "")
            match decoded with
            | none => st
            | some _ =>
              let rowsStored := p.rows.getD (RowsField.count 1)
              let colsStored := (p.cols.map RowsField.count).getD (RowsField.count 1)
              let blob : SnapshotBlob :=
                SnapshotBlob.legacy rowsStored colsStored
                  (p.width.getD 16) (p.height.getD 16) mono_base64
                  p.monoColor color_base64 env.now
              let devices1 := st.devices.map (fun d =>
                if d.device_id = device_id then
                  { d with display_snapshot := some blob, last_seen := env.now }
                else d)
              let snap : DisplaySnapshotRow :=
                { device_id := device_id,
                  row_text := p.row_text.getD [],
                  bitmap_data := BitmapData.legacy mono_base64 (p.width.getD 16)
                    (p.height.getD 16) rowsStored colsStored p.monoColor color_base64,
                  timestamp := env.now }
              { st with devices := devices1, snapshots := st.snapshots ++ [snap] }

/-- `handle_event`: validates the environment token and event type,
computes the event instant from the receive time minus `offset_ms`,
registers the device when unknown (requiring a truthy `product`), and
appends the event row. -/
def handle_event (env : EngineEnv) (topic : String) (p : Payload)
    (st : DashState) : DashState :=
  let parts := splitOnSep '/' topic
  if parts.length < 4 then st
  else
    let environment := parts.getD 1 ""
    let device_id := parts.getD 3 ""
    if ¬(environment = "dev" ∨ environment = "prod") then st
    else
      let event_type := p.etype
      if ¬ truthyS event_type then st
      else
        let event_time := env.now - p.offset_ms.getD 0
        let devices1 :=
          match st.devices.find? (fun d => d.device_id == device_id) with
          | some _ => some st.devices
          | none =>
            if ¬ truthyS p.product then none
            else some (st.devices ++
              [{ device_id := device_id,
                 product := p.product.getD "",
                 board_type := if truthyS p.board then p.board.getD "" else "Unknown",
                 firmware_version := "Unknown",
                 first_seen := env.now,
                 last_seen := env.now }])
        match devices1 with
        | none => st
        | some ds =>
          let event_log : EventLogRow :=
            { device_id := device_id, event_type := event_type.getD "",
              event_data := EventData.deviceEvent p.data, timestamp := event_time }
          { st with devices := ds, events := st.events ++ [event_log] }

/-- `on_message`: parses the payload JSON (a `none` payload models a JSON
parse failure, logged and dropped) and routes by the topic's category
segment. The dispatcher matches topics from both environments; it never
consults the engine's configured environment scope. -/
def on_message (env : EngineEnv) (topic : String) (parsed : Option Payload)
    (st : DashState) : DashState :=
  match parsed with
  | none => st
  | some payload =>
    let parts := splitOnSep '/' topic
    if parts.length ≥ 3 ∧ parts.getD 0 "" = "norrtek-iot" then
      let topic_path := parts.getD 2 ""
      if topic_path = "heartbeat" then handle_heartbeat env topic payload st
      else if topic_path = "info" then handle_device_info env topic payload st
      else if topic_path = "ota" then
        if parts.length ≥ 4 then
          let ota_action := parts.getD 3 ""
          if ota_action = "start" then handle_ota_start env topic payload st
          else if ota_action = "progress" then handle_ota_progress env topic payload st
          else if ota_action = "complete" then handle_ota_complete env topic payload st
          else st
        else st
      else if topic_path = "display" then handle_display_snapshot env topic payload st
      else if topic_path = "event" then handle_event env topic payload st
      else st
    else st

/-- A broker subscription-management action taken in `on_connect`. -/
inductive BrokerAction where
  | unsub (topic : String)
  | sub (topic : String) (qos : Nat)
  deriving DecidableEq, Repr

/-- The ordered subscription actions of `on_connect` for an engine scoped
to `env`: first defensively unsubscribe from the other environment's
topic filters, then subscribe to this environment's full set (heartbeat
at QoS 0, everything else at QoS 1). -/
def on_connect_actions (env : String) : List BrokerAction :=
  let other := if env = "dev" then "prod" else "dev"
  [ BrokerAction.unsub ("norrtek-iot/" ++ other ++ "/heartbeat/+"),
    BrokerAction.unsub ("norrtek-iot/" ++ other ++ "/info/+"),
    BrokerAction.unsub ("norrtek-iot/" ++ other ++ "/ota/start/+"),
    BrokerAction.unsub ("norrtek-iot/" ++ other ++ "/ota/progress/+"),
    BrokerAction.unsub ("norrtek-iot/" ++ other ++ "/ota/complete/+"),
    BrokerAction.unsub ("norrtek-iot/" ++ other ++ "/display/snapshot/#"),
    BrokerAction.unsub ("norrtek-iot/" ++ other ++ "/event/#"),
    BrokerAction.sub ("norrtek-iot/" ++ env ++ "/heartbeat/+") 0,
    BrokerAction.sub ("norrtek-iot/" ++ env ++ "/info/+") 1,
    BrokerAction.sub ("norrtek-iot/" ++ env ++ "/ota/start/+") 1,
    BrokerAction.sub ("norrtek-iot/" ++ env ++ "/ota/progress/+") 1,
    BrokerAction.sub ("norrtek-iot/" ++ env ++ "/ota/complete/+") 1,
    BrokerAction.sub ("norrtek-iot/" ++ env ++ "/display/snapshot/#") 1,
    BrokerAction.sub ("norrtek-iot/" ++ env ++ "/event/#") 1 ]

/-- The diagnostic recorded by the timeout sweep for a session that
stalled after partial progress (the timestamp rendering stands in for
`isoformat()`). -/
def timeoutStalledMsg (lp : Int) : String :=
  "OTA update timed out after 5 minutes of inactivity (last activity: " ++
    toString lp ++ ")"

/-- The diagnostic recorded by the timeout sweep for a session that never
received progress. -/
def timeoutNoProgressMsg (startedAt : Int) : String :=
  "OTA update timed out after 5 minutes with no progress (started: " ++
    toString startedAt ++ ")"

/-- One session's treatment by the timeout sweep: an in-flight session
started more than 5 minutes ago whose progress is absent or equally old
is failed with the appropriate diagnostic; everything else is untouched. -/
def sweepOne (now : Int) (s : OTAUpdateLog) : OTAUpdateLog :=
  if isInflight s then
    let timeout_threshold := now - 300000
    if s.started_at < timeout_threshold ∧
        progressStale timeout_threshold s.last_progress_at then
      { s with
        status := "failed",
        completed_at := some now,
        error_message := some
          (match s.last_progress_at with
           | some lp => timeoutStalledMsg lp
           | none => timeoutNoProgressMsg s.started_at) }
    else s
  else s

/-- One scan of `ota_timeout_checker`: applies the timeout rule to every
session in the store. -/
def ota_timeout_sweep (now : Int) (st : DashState) : DashState :=
  { st with sessions := st.sessions.map (sweepOne now) }

/-! ## Device status derivation (src/dashboard/models.py, Device.to_dict) -/

/-- Insert into an ascending list (model of the SQL ascending order). -/
def insertAsc (x : Int) : List Int → List Int
  | [] => [x]
  | y :: ys => if x ≤ y then x :: y :: ys else y :: insertAsc x ys

/-- Ascending sort of sample timestamps
(`order_by(HeartbeatHistory.timestamp.asc())`). -/
def sortAsc : List Int → List Int
  | [] => []
  | x :: xs => insertAsc x (sortAsc xs)

/-- Gaps between consecutive samples of an ascending list
(`heartbeats[i].timestamp - heartbeats[i-1].timestamp`). -/
def consecutiveGaps : List Int → List Int
  | a :: b :: rest => (b - a) :: consecutiveGaps (b :: rest)
  | _ => []

/-- The longest run of consecutive missed checkins: a gap exceeding 90
seconds counts one miss and grows the current run, any other gap resets
it; returns the maximal run seen. -/
def maxConsecutiveMisses (gaps : List Int) : Nat :=
  (gaps.foldl
    (fun pair g =>
      if g > 90000 then (pair.1 + 1, max pair.2 (pair.1 + 1)) else (0, pair.2))
    ((0 : Nat), (0 : Nat))).2

/-- The device's heartbeat sample timestamps from the last hour, sorted
ascending (the `heartbeats` query of `Device.to_dict`). -/
def samplesInWindow (now : Int) (d : Device)
    (heartbeats : List HeartbeatRecord) : List Int :=
  sortAsc ((heartbeats.filter
    (fun h => h.device_id == d.device_id && decide (h.timestamp ≥ now - 3600000))).map
    (fun h => h.timestamp))

/-- The status computation of `Device.to_dict` with the default
15-minute online threshold: offline when `last_seen` is 15 or more
minutes old; else degraded when the last hour holds at least 3 samples
whose longest run of consecutive missed checkins is at least 2; else
online. -/
def deviceStatus (now : Int) (d : Device)
    (heartbeats : List HeartbeatRecord) : String :=
  let is_online := now - d.last_seen < 900000
  let is_degraded :=
    if is_online then
      let sorted := samplesInWindow now d heartbeats
      decide (sorted.length ≥ 3 ∧ maxConsecutiveMisses (consecutiveGaps sorted) ≥ 2)
    else false
  if ¬ is_online then "offline"
  else if is_degraded then "degraded"
  else "online"

/-! ## Session predicates -/

/-- Whether an OTA session has reached a terminal status. -/
def isTerminal (s : OTAUpdateLog) : Prop :=
  s.status = "success" ∨ s.status = "failed"

/-! ## Concrete sample data used by witnesses and counterexamples -/

/-- A concrete engine environment at a given instant, with trivial
collaborators. -/
def sampleEnvAt (now : Int) : EngineEnv :=
  { now := now, genSid := "GEN-SID", subscriberId := "SUB-1",
    validIp := fun s => some s, b64ok := fun _ => some 0,
    hasSpecificFw := fun _ _ _ => false, getTargetFw := fun _ _ => none }

/-- A registered device D1. -/
def sampleDevice : Device :=
  { device_id := "D1", product := "ski-clock", board_type := "ESP32",
    firmware_version := "1.0.0", first_seen := 0, last_seen := 0 }

/-- A session of D1 already terminal with status success. -/
def terminalSession : OTAUpdateLog :=
  { session_id := "S9", device_id := some "D1", product := "ski-clock",
    platform := "esp32", new_version := "2.0.0", status := "success",
    started_at := 0, completed_at := some 500, download_progress := 100 }

/-- An in-flight session belonging to device B. -/
def inflightSessionB : OTAUpdateLog :=
  { session_id := "SB", device_id := some "B", product := "ski-clock",
    platform := "esp32", new_version := "2.0.0", status := "started",
    started_at := 0 }

/-- An in-flight session of D1 started at instant 0 with no progress. -/
def staleSession : OTAUpdateLog :=
  { session_id := "T1", device_id := some "D1", product := "ski-clock",
    platform := "esp32", new_version := "2.0.0", status := "started",
    started_at := 0 }

/-- A device for the degraded-status examples, last seen at the given
instant. -/
def c9Device (lastSeen : Int) : Device :=
  { device_id := "D9", product := "ski-clock", board_type := "ESP32",
    firmware_version := "1.0.0", first_seen := 0, last_seen := lastSeen }

/-- A heartbeat history sample of device D9 at the given instant. -/
def c9hb (t : Int) : HeartbeatRecord :=
  { device_id := "D9", timestamp := t }

/-- Whether a broker action is scoped to the expected environment: a
subscription's topic filter carries the engine's own token, an
unsubscription's the other environment's token. -/
def actionScopedTo (e : String) (a : BrokerAction) : Bool :=
  match a with
  | BrokerAction.sub t _ => (splitOnSep '/' t).getD 1 "" == e
  | BrokerAction.unsub t =>
    (splitOnSep '/' t).getD 1 "" == (if e = "dev" then "prod" else "dev")

/-- The effective firmware version a heartbeat reports for a known
device: the payload's version when truthy, else the stored one. -/
def effectiveHeartbeatVersion (p : Payload) (d0 : Device) : String :=
  if truthyS p.version then p.version.getD "" else d0.firmware_version

theorem dropWhile_vV_atMostOne (c : Char) (rest : List Char)
    (h : ((c :: rest).takeWhile (fun x => x == 'v' || x == 'V')).length ≤ 1) :
    ((c :: rest).dropWhile (fun x => x == 'v' || x == 'V')) =
      if c = 'v' ∨ c = 'V' then rest else c :: rest := by
  by_cases hc : c = 'v' ∨ c = 'V'
  · have hcb : (c == 'v' || c == 'V') = true := by
      rcases hc with h1 | h1 <;> simp [h1]
    rw [if_pos hc]
    rw [List.takeWhile_cons, if_pos hcb] at h
    simp only [List.length_cons, Nat.add_le_add_iff_right, Nat.le_zero,
      List.length_eq_zero] at h
    rw [List.dropWhile_cons, if_pos hcb]
    cases hr : rest with
    | nil => rfl
    | cons d ds =>
      rw [hr] at h
      rw [List.takeWhile_cons] at h
      by_cases hd : (d == 'v' || d == 'V') = true
      · rw [if_pos hd] at h
        simp at h
      · rw [List.dropWhile_cons, if_neg hd]
  · have hcb : (c == 'v' || c == 'V') = false := by
      push_neg at hc
      simp [hc.1, hc.2]
    rw [if_neg hc, List.dropWhile_cons, if_neg (by simp [hcb])]

theorem lstripvV_eq_stripOneV_of_atMostOne (s : String)
    (h : leadingVCount s ≤ 1) : lstripvV s = stripOneV s := by
  obtain ⟨cs⟩ := s
  cases cs with
  | nil => rfl
  | cons c rest =>
    have h' : ((c :: rest).takeWhile (fun x => x == 'v' || x == 'V')).length ≤ 1 := h
    have key := dropWhile_vV_atMostOne c rest h'
    show String.mk ((c :: rest).dropWhile (fun x => x == 'v' || x == 'V')) = _
    rw [key]
    show _ = if c = 'v' ∨ c = 'V' then String.mk rest else String.mk (c :: rest)
    by_cases hc : c = 'v' ∨ c = 'V'
    · rw [if_pos hc, if_pos hc]
    · rw [if_neg hc, if_neg hc]

theorem vStrip_eq (l : List Char) : vStripCode l = vStripSpec l := by
  unfold vStripCode vStripSpec
  by_cases h1 : l.headD ' ' = 'v'
  · rw [if_pos h1, if_pos (Or.inl h1)]
  · by_cases h2 : l.headD ' ' = 'V'
    · rw [if_neg h1, if_pos h2, if_pos (Or.inr h2)]
    · rw [if_neg h1, if_neg h2, if_neg (by rintro (h | h) <;> contradiction)]

theorem semComp_eq (ps : List String) (i : Nat) :
    (if ps.length > i then pyInt (ps.getD i "") else some 0) =
      (match ps.get? i with | some p => pyInt p | none => some (0 : Int)) := by
  by_cases h : i < ps.length
  · rw [if_pos h, List.getD_eq_getElem?_getD, List.getElem?_eq_getElem h]
    rw [List.get?_eq_getElem?, List.getElem?_eq_getElem h]
    rfl
  · rw [if_neg h, List.get?_eq_getElem?, List.getElem?_eq_none_iff.mpr (Nat.le_of_not_lt h)]

theorem sem_eq (ps : List String) : semOrdinalCode ps = semOrdinalSpec ps := by
  unfold semOrdinalCode semOrdinalSpec
  rw [semComp_eq ps 0, semComp_eq ps 1, semComp_eq ps 2]

theorem parse_version_eq_specParse (s : String) : parse_version s = specParse s := by
  unfold parse_version specParse
  rw [vStrip_eq]
  by_cases h4 : ((splitChars '.' (vStripSpec s.toList)).map (fun l => String.mk l)).length = 4
  · rw [if_neg (not_not_intro h4), if_pos h4]
    rfl
  · rw [if_pos h4, if_neg h4, sem_eq]

/-- C7: `parse_version` strips one optional leading v/V and splits on
'.'; exactly four components are combined by the timestamp formula with
baseline year 2025, otherwise the semantic formula applies with missing
components defaulting to 0; it agrees with the specification's algorithm
on every input, satisfies the spec's worked examples, and fails on
non-numeric components. -/
theorem C7_parse_version_follows_spec :
    (∀ s : String, parse_version s = specParse s) ∧
    parse_version "v1.2.3" = some 1002003 ∧
    parse_version "2025.11.19.1" = some 11190001 ∧
    (∃ a b : Int, parse_version "v2.0.0" = some a ∧
      parse_version "v1.9.9" = some b ∧ b < a) ∧
    parse_version "1.2" = some 1002000 ∧
    parse_version "v1.x.3" = none ∧
    parse_version "2025.11.19.x" = none :=
  ⟨parse_version_eq_specParse, by decide, by decide,
    ⟨2000000, 1009009, by decide, by decide, by decide⟩,
    by decide, by decide, by decide⟩

/-- C7 witness: the refinement conjunct applied at a concrete input. -/
theorem C7_parse_version_follows_spec_witness :
    parse_version "v9.8.7" = specParse "v9.8.7" :=
  C7_parse_version_follows_spec.1 "v9.8.7"

/-- C8 counterexample: the code's normalization is Python
`lstrip('vV')`, which strips ALL leading v/V characters, so on the pair
("vv1.0", "1.0") the code's comparison deems the versions equal while
the claimed strip-exactly-one definition deems them different. -/
theorem C8_lstrip_counterexample :
    lstripvV "vv1.0" = lstripvV "1.0" ∧
      stripOneV "vv1.0" ≠ stripOneV "1.0" := by decide

/-- C8 amended: every comparison site normalizes with `lstrip('vV')`
(embedded as `lstripvV`, used verbatim in the heartbeat handler below);
this agrees with the spec's strip-exactly-one definition whenever each
operand carries at most one leading 'v'/'V'. -/
theorem C8_normalized_equality_amended (a b : String)
    (ha : leadingVCount a ≤ 1) (hb : leadingVCount b ≤ 1) :
    (lstripvV a = lstripvV b ↔ stripOneV a = stripOneV b) := by
  rw [lstripvV_eq_stripOneV_of_atMostOne a ha,
    lstripvV_eq_stripOneV_of_atMostOne b hb]

/-- C8 witness: the amended agreement applied at a concrete pair. -/
theorem C8_normalized_equality_amended_witness :
    (lstripvV "v2.0.0" = lstripvV "2.0.0" ↔
      stripOneV "v2.0.0" = stripOneV "2.0.0") :=
  C8_normalized_equality_amended "v2.0.0" "2.0.0" (by decide) (by decide)

theorem isTerminal_not_inflight (s : OTAUpdateLog) (h : isTerminal s) :
    ¬ isInflight s := by
  rcases h with h | h <;> rintro (h2 | h2) <;> rw [h] at h2 <;> simp at h2

theorem foldl_recency_pick (step : Option OTAUpdateLog → OTAUpdateLog → Option OTAUpdateLog)
    (hstep : ∀ acc x, step acc x = acc ∨ step acc x = some x) :
    ∀ (l : List OTAUpdateLog) (acc : Option OTAUpdateLog) (r : OTAUpdateLog),
      l.foldl step acc = some r → acc = some r ∨ r ∈ l := by
  intro l
  induction l with
  | nil => intro acc r h; exact Or.inl h
  | cons x xs ih =>
    intro acc r h
    rcases ih (step acc x) r h with h2 | h2
    · rcases hstep acc x with h3 | h3
      · exact Or.inl (h3 ▸ h2)
      · rw [h3] at h2
        injection h2 with h4
        exact Or.inr (h4 ▸ List.mem_cons_self x xs)
    · exact Or.inr (List.mem_cons_of_mem x h2)

theorem mostRecentInflight_spec (did : String) (ss : List OTAUpdateLog)
    (r : OTAUpdateLog) (h : mostRecentInflight did ss = some r) :
    r.device_id = some did ∧ isInflight r ∧ r ∈ ss := by
  unfold mostRecentInflight at h
  have hpick := foldl_recency_pick _
    (fun acc x => by
      cases acc with
      | none => exact Or.inr rfl
      | some b =>
        by_cases hgt : x.started_at > b.started_at
        · exact Or.inr (by simp [hgt])
        · exact Or.inl (by simp [hgt]))
    _ none r h
  rcases hpick with h2 | h2
  · simp at h2
  · have hp := List.of_mem_filter h2
    have hmem := List.mem_of_mem_filter h2
    have hp2 := of_decide_eq_true hp
    exact ⟨hp2.1, hp2.2, hmem⟩

theorem findBySession_spec (sid : String) (ss : List OTAUpdateLog)
    (l : OTAUpdateLog) (h : findBySession sid ss = some l) :
    l.session_id = sid ∧ l ∈ ss := by
  unfold findBySession at h
  have h1 := List.find?_some h
  have h2 := List.mem_of_find?_eq_some h
  exact ⟨by simpa using h1, h2⟩

theorem lookupSession_cases (sid : Option String) (did : String)
    (ss : List OTAUpdateLog) (l : OTAUpdateLog)
    (h : lookupSession sid did ss = some l) :
    (truthyS sid = true ∧ l.session_id = sid.getD "") ∨
      (l.device_id = some did ∧ isInflight l ∧ l ∈ ss) := by
  unfold lookupSession at h
  by_cases ht : truthyS sid = true
  · rw [if_pos ht] at h
    cases hf : findBySession (sid.getD "") ss with
    | some l2 =>
      rw [hf] at h
      simp only at h
      injection h with h2
      exact Or.inl ⟨ht, h2 ▸ (findBySession_spec _ _ _ hf).1⟩
    | none =>
      rw [hf] at h
      simp only at h
      split at h
      · exact Or.inr (mostRecentInflight_spec _ _ _ h)
      · cases h
  · rw [if_neg ht] at h
    simp only at h
    split at h
    · exact Or.inr (mostRecentInflight_spec _ _ _ h)
    · cases h

theorem sid_unique_eq (ss : List OTAUpdateLog)
    (hp : ss.Pairwise (fun a b => a.session_id ≠ b.session_id))
    (i : Nat) (s : OTAUpdateLog) (hs : ss.get? i = some s)
    (l : OTAUpdateLog) (hl : l ∈ ss) (hsid : l.session_id = s.session_id) :
    l = s := by
  induction ss generalizing i with
  | nil => cases hl
  | cons a as ih =>
    have hp2 := List.pairwise_cons.mp hp
    rcases List.mem_cons.mp hl with rfl | hl2
    · cases i with
      | zero =>
        simpa using hs
      | succ n =>
        have hmem : s ∈ as := List.get?_mem hs
        exact absurd hsid (hp2.1 s hmem)
    · cases i with
      | zero =>
        have ha : a = s := by simpa using hs
        subst ha
        exact absurd hsid.symm (hp2.1 l hl2)
      | succ n =>
        exact ih hp2.2 n hs hl2

theorem sweepOne_not_inflight (now : Int) (s : OTAUpdateLog)
    (h : ¬ isInflight s) : sweepOne now s = s := by
  unfold sweepOne
  rw [if_neg h]

theorem sweepOne_inactive (now : Int) (s : OTAUpdateLog) (hinf : isInflight s)
    (hst : s.started_at < now - 300000)
    (hpg : progressStale (now - 300000) s.last_progress_at) :
    sweepOne now s =
      { s with
        status := "failed",
        completed_at := some now,
        error_message := some
          (match s.last_progress_at with
           | some lp => timeoutStalledMsg lp
           | none => timeoutNoProgressMsg s.started_at) } := by
  unfold sweepOne
  rw [if_pos hinf, if_pos ⟨hst, hpg⟩]

theorem sweepOne_active (now : Int) (s : OTAUpdateLog)
    (h : ¬(s.started_at < now - 300000 ∧ progressStale (now - 300000) s.last_progress_at)) :
    sweepOne now s = s := by
  unfold sweepOne
  split
  · rw [if_neg h]
  · rfl

theorem heartbeatTail_preserves_nonInflight (env : EngineEnv)
    (environment device_id : String) (bt cv pr : Option String) (p : Payload)
    (d : Device) (st : DashState) (i : Nat) (s : OTAUpdateLog)
    (hs : st.sessions.get? i = some s) (hni : ¬ isInflight s) :
    (heartbeatTail env environment device_id bt cv pr p d st).sessions.get? i = some s := by
  show (if (if truthyS cv then cv.getD "" else d.firmware_version) ≠ "" then
      st.sessions.map (fun x =>
        if x.device_id = some device_id ∧ isInflight x then
          resolveStuckOne env.now (if truthyS cv then cv.getD "" else d.firmware_version) x
        else x)
    else st.sessions).get? i = some s
  generalize (if truthyS cv then cv.getD "" else d.firmware_version) = eff
  split
  · rw [List.get?_map, hs]
    simp only [Option.map_some']
    rw [if_neg (fun hc => hni hc.2)]
  · exact hs

theorem heartbeat_preserves_nonInflight (env : EngineEnv) (topic : String)
    (p : Payload) (st : DashState) (i : Nat) (s : OTAUpdateLog)
    (hs : st.sessions.get? i = some s) (hni : ¬ isInflight s) :
    (handle_heartbeat env topic p st).sessions.get? i = some s := by
  simp only [handle_heartbeat]
  split
  · exact hs
  · split
    · exact hs
    · split
      · exact hs
      · split
        · exact heartbeatTail_preserves_nonInflight _ _ _ _ _ _ _ _ _ _ _ hs hni
        · split
          · exact heartbeatTail_preserves_nonInflight _ _ _ _ _ _ _ _ _ _ _ hs hni
          · exact hs

theorem heartbeatTail_resolves (env : EngineEnv)
    (environment device_id : String) (bt cv pr : Option String) (p : Payload)
    (d : Device) (st : DashState) (i : Nat) (s : OTAUpdateLog)
    (hs : st.sessions.get? i = some s)
    (heff : (if truthyS cv then cv.getD "" else d.firmware_version) ≠ "")
    (hdev : s.device_id = some device_id) (hinf : isInflight s)
    (hmatch : lstripvV (if truthyS cv then cv.getD "" else d.firmware_version) =
      lstripvV s.new_version) :
    (heartbeatTail env environment device_id bt cv pr p d st).sessions.get? i =
      some { s with
        status := "success",
        completed_at := some env.now,
        download_progress := 100 } := by
  show (if (if truthyS cv then cv.getD "" else d.firmware_version) ≠ "" then
      st.sessions.map (fun x =>
        if x.device_id = some device_id ∧ isInflight x then
          resolveStuckOne env.now (if truthyS cv then cv.getD "" else d.firmware_version) x
        else x)
    else st.sessions).get? i = _
  rw [if_pos heff, List.get?_map, hs]
  simp only [Option.map_some']
  rw [if_pos ⟨hdev, hinf⟩]
  unfold resolveStuckOne
  rw [if_pos hmatch]

theorem ota_progress_preserves_other (env : EngineEnv) (topic : String)
    (p : Payload) (st : DashState) (i : Nat) (s : OTAUpdateLog)
    (hp : st.sessions.Pairwise (fun a b => a.session_id ≠ b.session_id))
    (hs : st.sessions.get? i = some s)
    (hterm : isTerminal s)
    (hsid : truthyS p.session_id = true → p.session_id.getD "" ≠ s.session_id) :
    (handle_ota_progress env topic p st).sessions.get? i = some s := by
  simp only [handle_ota_progress]
  split
  · exact hs
  · split
    · exact hs
    · split
      · exact hs
      · rename_i l hl
        rw [List.get?_map, hs]
        simp only [Option.map_some']
        rw [if_neg ?hne]
        case hne =>
          intro he
          rcases lookupSession_cases _ _ _ _ hl with ⟨ht, hls⟩ | ⟨_, hinf, hmem⟩
          · exact hsid ht (by rw [← hls, ← he])
          · have := sid_unique_eq st.sessions hp i s hs l hmem he.symm
            exact isTerminal_not_inflight s hterm (this ▸ hinf)

theorem ota_complete_preserves_other (env : EngineEnv) (topic : String)
    (p : Payload) (st : DashState) (i : Nat) (s : OTAUpdateLog)
    (hp : st.sessions.Pairwise (fun a b => a.session_id ≠ b.session_id))
    (hs : st.sessions.get? i = some s)
    (hterm : isTerminal s)
    (hsid : truthyS p.session_id = true → p.session_id.getD "" ≠ s.session_id) :
    (handle_ota_complete env topic p st).sessions.get? i = some s := by
  simp only [handle_ota_complete]
  split
  · exact hs
  · split
    · exact hs
    · split
      · exact hs
      · split
        · exact hs
        · rename_i l hl
          rw [List.get?_map, hs]
          simp only [Option.map_some']
          rw [if_neg ?hne]
          case hne =>
            intro he
            rcases lookupSession_cases _ _ _ _ hl with ⟨ht, hls⟩ | ⟨_, hinf, hmem⟩
            · exact hsid ht (by rw [← hls, ← he])
            · have := sid_unique_eq st.sessions hp i s hs l hmem he.symm
              exact isTerminal_not_inflight s hterm (this ▸ hinf)

theorem sweepOne_noop (now : Int) (s : OTAUpdateLog)
    (h : ¬(isInflight s ∧ s.started_at < now - 300000 ∧
      progressStale (now - 300000) s.last_progress_at)) :
    sweepOne now s = s := by
  by_cases hin : isInflight s
  · exact sweepOne_active now s (fun hc => h ⟨hin, hc⟩)
  · exact sweepOne_not_inflight now s hin

theorem sweep_preserves_nonInflight (now : Int) (st : DashState) (i : Nat)
    (s : OTAUpdateLog) (hs : st.sessions.get? i = some s)
    (hni : ¬ isInflight s) :
    (ota_timeout_sweep now st).sessions.get? i = some s := by
  show (st.sessions.map (sweepOne now)).get? i = some s
  rw [List.get?_map, hs]
  simp only [Option.map_some']
  rw [sweepOne_not_inflight now s hni]

theorem diagMsgs_ne (lp t : Int) : timeoutStalledMsg lp ≠ timeoutNoProgressMsg t := by
  intro h
  have hd : (timeoutStalledMsg lp).data = (timeoutNoProgressMsg t).data :=
    congrArg String.data h
  unfold timeoutStalledMsg timeoutNoProgressMsg at hd
  rw [String.data_append, String.data_append, String.data_append,
    String.data_append] at hd
  have h37 := congrArg (fun l : List Char => l[37]?) hd
  simp only at h37
  have hlenA : (37 : Nat) <
      ("OTA update timed out after 5 minutes of inactivity (last activity: ".data ++
        (toString lp).data).length := by
    rw [List.length_append]
    have h67 : ("OTA update timed out after 5 minutes of inactivity (last activity: ".data).length = 67 := by
      decide
    omega
  have hlenB : (37 : Nat) <
      ("OTA update timed out after 5 minutes with no progress (started: ".data ++
        (toString t).data).length := by
    rw [List.length_append]
    have h64 : ("OTA update timed out after 5 minutes with no progress (started: ".data).length = 64 := by
      decide
    omega
  rw [List.getElem?_append_left hlenA, List.getElem?_append_left hlenB,
    List.getElem?_append_left (by decide), List.getElem?_append_left (by decide)] at h37
  simp at h37

theorem deviceStatus_char (now : Int) (d : Device) (hbs : List HeartbeatRecord) :
    deviceStatus now d hbs =
      (if now - d.last_seen ≥ 900000 then "offline"
       else if (samplesInWindow now d hbs).length ≥ 3 ∧
           maxConsecutiveMisses (consecutiveGaps (samplesInWindow now d hbs)) ≥ 2
         then "degraded" else "online") := by
  unfold deviceStatus
  by_cases h : now - d.last_seen < 900000
  · have h2 : ¬ (now - d.last_seen ≥ 900000) := by omega
    by_cases hd : (samplesInWindow now d hbs).length ≥ 3 ∧
        maxConsecutiveMisses (consecutiveGaps (samplesInWindow now d hbs)) ≥ 2
    · simp [h, h2, hd]
    · simp [h, h2, hd]
  · have h2 : now - d.last_seen ≥ 900000 := by omega
    simp [h, h2]

/-- C5: an ota-start with product, platform and new_version forces every
in-flight session of the topic's device to failed with completion stamped
and the interruption reason recorded, then appends the new session with
status started; the supersession condition involves no clock, so it is
unconditional rather than time-gated. -/
theorem C5_ota_start_supersession (env : EngineEnv) (topic : String)
    (p : Payload) (st : DashState)
    (hlen : ¬ (splitOnSep '/' topic).length < 5)
    (hdid : (splitOnSep '/' topic).getD 4 "" ≠ "")
    (hreq : (truthyS p.product && truthyS p.platform && truthyS p.new_version) = true) :
    (∀ i s, st.sessions.get? i = some s →
      (handle_ota_start env topic p st).sessions.get? i = some
        (if s.device_id = some ((splitOnSep '/' topic).getD 4 "") ∧ isInflight s then
          { s with
            status := "failed",
            completed_at := some env.now,
            error_message := some "Interrupted by new OTA attempt" }
         else s)) ∧
    ((handle_ota_start env topic p st).sessions.get? st.sessions.length = some
      { session_id := if truthyS p.session_id then p.session_id.getD "" else env.genSid,
        device_id := some ((splitOnSep '/' topic).getD 4 ""),
        product := p.product.getD "",
        platform := p.platform.getD "",
        old_version := p.old_version,
        new_version := p.new_version.getD "",
        status := "started",
        started_at := env.now }) ∧
    (handle_ota_start env topic p st).sessions.length = st.sessions.length + 1 := by
  simp only [handle_ota_start]
  rw [if_neg hlen, if_neg hdid, if_neg (not_not_intro hreq)]
  refine ⟨?_, ?_, ?_⟩
  · intro i s hs
    have hi : i < st.sessions.length := by
      by_contra hge
      rw [List.get?_eq_none.mpr (Nat.le_of_not_lt hge)] at hs
      cases hs
    rw [List.get?_append (by simpa using hi), List.get?_map, hs]
    rfl
  · rw [List.get?_append_right (by simp), List.length_map]
    simp
  · simp

/-- C5 witness: superseding a concrete in-flight session. -/
theorem C5_ota_start_supersession_witness :
    ((handle_ota_start (sampleEnvAt 5000) "norrtek-iot/dev/ota/start/D1"
        { session_id := some "S2", product := some "ski-clock",
          platform := some "esp32", new_version := some "2.1.0" }
        { sessions := [staleSession] }).sessions.get? 0 = some
      (if staleSession.device_id = some ((splitOnSep '/' "norrtek-iot/dev/ota/start/D1").getD 4 "") ∧
          isInflight staleSession then
        { staleSession with
          status := "failed",
          completed_at := some 5000,
          error_message := some "Interrupted by new OTA attempt" }
       else staleSession)) :=
  (C5_ota_start_supersession (sampleEnvAt 5000) "norrtek-iot/dev/ota/start/D1"
    { session_id := some "S2", product := some "ski-clock",
      platform := some "esp32", new_version := some "2.1.0" }
    { sessions := [staleSession] } (by decide) (by decide) (by decide)).1 0 staleSession rfl

/-- C1 counterexample: an ota-progress message carrying the exact
session_id of a terminal (success) session mutates it back to
downloading, overwriting its progress and refreshing its activity
timestamp — processing is not a no-op on that terminal session. -/
theorem C1_terminal_noop_counterexample :
    terminalSession.status = "success" ∧
    ((handle_ota_progress (sampleEnvAt 9000) "norrtek-iot/dev/ota/progress/D1"
        { session_id := some "S9", progress := some 40 }
        { sessions := [terminalSession] }).sessions.map
      (fun s => (s.status, s.download_progress, s.last_progress_at))) =
      [("downloading", 40, some 9000)] := by decide

/-- C1 amended: heartbeat reconciliation and the timeout sweep never
touch terminal sessions, and the recency fallback of the progress and
complete handlers only selects in-flight sessions; but a progress or
complete message carrying the exact session_id of a terminal session
does mutate it, so the terminal no-op guarantee holds only when the
payload does not name that session's id (session ids taken pairwise
distinct, as the database's unique constraint ensures). -/
theorem C1_terminal_noop_amended :
    (∀ env topic p st i s, st.sessions.get? i = some s → isTerminal s →
      (handle_heartbeat env topic p st).sessions.get? i = some s) ∧
    (∀ now st i s, st.sessions.get? i = some s → isTerminal s →
      (ota_timeout_sweep now st).sessions.get? i = some s) ∧
    (∀ did ss r, mostRecentInflight did ss = some r → ¬ isTerminal r) ∧
    (∀ env topic p st i s,
      st.sessions.Pairwise (fun a b => a.session_id ≠ b.session_id) →
      st.sessions.get? i = some s → isTerminal s →
      (truthyS p.session_id = true → p.session_id.getD "" ≠ s.session_id) →
      (handle_ota_progress env topic p st).sessions.get? i = some s) ∧
    (∀ env topic p st i s,
      st.sessions.Pairwise (fun a b => a.session_id ≠ b.session_id) →
      st.sessions.get? i = some s → isTerminal s →
      (truthyS p.session_id = true → p.session_id.getD "" ≠ s.session_id) →
      (handle_ota_complete env topic p st).sessions.get? i = some s) := by
  refine ⟨?_, ?_, ?_, ?_, ?_⟩
  · intro env topic p st i s hs ht
    exact heartbeat_preserves_nonInflight env topic p st i s hs
      (isTerminal_not_inflight s ht)
  · intro now st i s hs ht
    exact sweep_preserves_nonInflight now st i s hs (isTerminal_not_inflight s ht)
  · intro did ss r h ht
    exact isTerminal_not_inflight r ht (mostRecentInflight_spec did ss r h).2.1
  · intro env topic p st i s hp hs ht hsid
    exact ota_progress_preserves_other env topic p st i s hp hs ht hsid
  · intro env topic p st i s hp hs ht hsid
    exact ota_complete_preserves_other env topic p st i s hp hs ht hsid

/-- C1 witness: a heartbeat leaves a concrete terminal session unchanged. -/
theorem C1_terminal_noop_amended_witness :
    (handle_heartbeat (sampleEnvAt 9000) "norrtek-iot/dev/heartbeat/D1"
      { version := some "9.9.9" }
      { sessions := [terminalSession] }).sessions.get? 0 = some terminalSession :=
  C1_terminal_noop_amended.1 (sampleEnvAt 9000) "norrtek-iot/dev/heartbeat/D1"
    { version := some "9.9.9" } { sessions := [terminalSession] } 0 terminalSession
    rfl (Or.inl rfl)

/-- C6: one scan of the timeout sweep fails exactly the in-flight
sessions that are inactive (started more than 5 minutes ago and with
progress absent or equally old), stamping completion and a diagnostic
that distinguishes the never-received-progress case from the
stalled-after-partial-progress case; a session with recent progress is
not failed even if started long ago. -/
theorem C6_timeout_sweep_exact :
    (∀ now st i s, st.sessions.get? i = some s →
      isInflight s → s.started_at < now - 300000 →
      progressStale (now - 300000) s.last_progress_at →
      (ota_timeout_sweep now st).sessions.get? i = some
        { s with
          status := "failed",
          completed_at := some now,
          error_message := some
            (match s.last_progress_at with
             | some lp => timeoutStalledMsg lp
             | none => timeoutNoProgressMsg s.started_at) }) ∧
    (∀ now st i s, st.sessions.get? i = some s →
      ¬(isInflight s ∧ s.started_at < now - 300000 ∧
        progressStale (now - 300000) s.last_progress_at) →
      (ota_timeout_sweep now st).sessions.get? i = some s) ∧
    (∀ lp t, timeoutStalledMsg lp ≠ timeoutNoProgressMsg t) ∧
    (∀ now st i s lp, st.sessions.get? i = some s →
      s.last_progress_at = some lp → ¬(lp < now - 300000) →
      (ota_timeout_sweep now st).sessions.get? i = some s) := by
  refine ⟨?_, ?_, diagMsgs_ne, ?_⟩
  · intro now st i s hs hinf hst hpg
    show (st.sessions.map (sweepOne now)).get? i = _
    rw [List.get?_map, hs]
    simp only [Option.map_some']
    rw [sweepOne_inactive now s hinf hst hpg]
  · intro now st i s hs h
    show (st.sessions.map (sweepOne now)).get? i = some s
    rw [List.get?_map, hs]
    simp only [Option.map_some']
    rw [sweepOne_noop now s h]
  · intro now st i s lp hs hlp hrec
    show (st.sessions.map (sweepOne now)).get? i = some s
    rw [List.get?_map, hs]
    simp only [Option.map_some']
    rw [sweepOne_noop now s ?h]
    case h =>
      rintro ⟨_, _, hpg⟩
      rw [hlp] at hpg
      exact hrec hpg

/-- C6 witness: the sweep fails a concrete 6-minute-old session with the
no-progress diagnostic. -/
theorem C6_timeout_sweep_exact_witness :
    (ota_timeout_sweep 400000 { sessions := [staleSession] }).sessions.get? 0 =
      some { staleSession with
        status := "failed",
        completed_at := some 400000,
        error_message := some
          (match staleSession.last_progress_at with
           | some lp => timeoutStalledMsg lp
           | none => timeoutNoProgressMsg staleSession.started_at) } :=
  C6_timeout_sweep_exact.1 400000 { sessions := [staleSession] } 0 staleSession rfl
    (Or.inl rfl) (by decide) trivial

/-- C9: combined device status is offline exactly when `last_seen` is 15
minutes or older; otherwise degraded exactly when the last hour's samples
number at least 3 and their longest run of consecutive missed checkins
(gap over 90 seconds) is at least 2; otherwise online. Heartbeats at
t=0s,60s,61s,260s,261s leave the device online, while t=0,60,260,460
make it degraded, and a device exactly 15 minutes stale is offline. -/
theorem C9_device_status :
    (∀ now d hbs, deviceStatus now d hbs =
      (if now - d.last_seen ≥ 900000 then "offline"
       else if (samplesInWindow now d hbs).length ≥ 3 ∧
           maxConsecutiveMisses (consecutiveGaps (samplesInWindow now d hbs)) ≥ 2
         then "degraded" else "online")) ∧
    deviceStatus 261000 (c9Device 261000)
      [c9hb 0, c9hb 60000, c9hb 61000, c9hb 260000, c9hb 261000] = "online" ∧
    deviceStatus 460000 (c9Device 460000)
      [c9hb 0, c9hb 60000, c9hb 260000, c9hb 460000] = "degraded" ∧
    deviceStatus 900000 (c9Device 0) [] = "offline" :=
  ⟨deviceStatus_char, by decide, by decide, by decide⟩

/-- C9 witness: the characterization applied at a concrete device. -/
theorem C9_device_status_witness :
    deviceStatus 0 (c9Device 0) [] =
      (if (0 : Int) - (c9Device 0).last_seen ≥ 900000 then "offline"
       else if (samplesInWindow 0 (c9Device 0) []).length ≥ 3 ∧
           maxConsecutiveMisses (consecutiveGaps (samplesInWindow 0 (c9Device 0) [])) ≥ 2
         then "degraded" else "online") :=
  C9_device_status.1 0 (c9Device 0) []

/-- C10: when a progress or complete payload carries a session_id, the
lookup matches on session_id alone with no device restriction: a
message published on device A's topic mutates device B's session when
that session carries the matching id (shown concretely for both the
progress and the complete handler). -/
theorem C10_session_lookup_ignores_device :
    (∀ sid ss l, findBySession sid ss = some l → l.session_id = sid) ∧
    ((handle_ota_progress (sampleEnvAt 700) "norrtek-iot/dev/ota/progress/A"
        { session_id := some "SB", progress := some 55 }
        { sessions := [inflightSessionB] }).sessions.map
      (fun s => (s.device_id, s.status, s.download_progress)) =
      [(some "B", "downloading", 55)]) ∧
    ((handle_ota_complete (sampleEnvAt 800) "norrtek-iot/dev/ota/complete/A"
        { session_id := some "SB", status := some "success" }
        { sessions := [inflightSessionB] }).sessions.map
      (fun s => (s.device_id, s.status, s.download_progress, s.completed_at)) =
      [(some "B", "success", 100, some 800)]) := by
  refine ⟨?_, by decide, by decide⟩
  intro sid ss l h
  exact (findBySession_spec sid ss l h).1

/-- C10 witness: the session the lookup returns carries the searched id. -/
theorem C10_session_lookup_ignores_device_witness :
    inflightSessionB.session_id = "SB" :=
  C10_session_lookup_ignores_device.1 "SB" [inflightSessionB] inflightSessionB rfl

/-- C2 counterexample: dispatching a dev-environment heartbeat alters
heartbeat-history and device state; `on_message` takes no engine-scope
input at all, so the same mutation occurs no matter which environment
the engine instance is scoped to. -/
theorem C2_dispatch_counterexample :
    ({ devices := [sampleDevice] } : DashState).heartbeats.length = 0 ∧
    (on_message (sampleEnvAt 100) "norrtek-iot/dev/heartbeat/D1"
        (some { rssi := some (-40) }) { devices := [sampleDevice] }).heartbeats.length = 1 ∧
    (on_message (sampleEnvAt 100) "norrtek-iot/dev/heartbeat/D1"
        (some { rssi := some (-40) }) { devices := [sampleDevice] }).devices.map
      Device.last_seen = [100] := by decide

/-- C2 amended: environment isolation is enforced at connection time, not
at dispatch: every `on_connect` subscription names the engine's own
environment token and every defensive unsubscription names the other
environment's, while the dispatcher itself processes heartbeats of either
environment and alters state. -/
theorem C2_environment_isolation_amended :
    (∀ a ∈ on_connect_actions "dev", actionScopedTo "dev" a = true) ∧
    (∀ a ∈ on_connect_actions "prod", actionScopedTo "prod" a = true) ∧
    (on_message (sampleEnvAt 100) "norrtek-iot/dev/heartbeat/D1"
        (some { rssi := some (-40) }) { devices := [sampleDevice] }).heartbeats.length = 1 ∧
    (on_message (sampleEnvAt 100) "norrtek-iot/prod/heartbeat/D1"
        (some { rssi := some (-40) }) { devices := [sampleDevice] }).heartbeats.length = 1 :=
  ⟨by decide, by decide, by decide, by decide⟩

/-- C2 witness: a concrete subscription action is scoped to dev. -/
theorem C2_environment_isolation_amended_witness :
    actionScopedTo "dev" (BrokerAction.sub "norrtek-iot/dev/heartbeat/+" 0) = true :=
  C2_environment_isolation_amended.1 (BrokerAction.sub "norrtek-iot/dev/heartbeat/+" 0)
    (by decide)

/-- C3 counterexample: an ota-start on a topic whose environment token is
"staging" — outside dev/prod — still creates a session: the OTA handlers
extract the token but never validate it. -/
theorem C3_env_rejection_counterexample :
    (handle_ota_start (sampleEnvAt 100) "norrtek-iot/staging/ota/start/D1"
        { product := some "ski-clock", platform := some "esp32",
          new_version := some "2.0.0" }
        { devices := [sampleDevice] }).sessions.map
      (fun s => (s.session_id, s.device_id, s.status)) =
      [("GEN-SID", some "D1", "started")] := by decide

/-- C3 amended: the heartbeat, device-info and event handlers validate
the topic's environment token and drop any message whose token is outside
dev/prod with no state change; the ota-start, ota-progress, ota-complete
and display-snapshot handlers extract the token but do not validate it
and process such messages normally, as the four concrete staging-token
mutations show. -/
theorem C3_env_rejection_amended :
    (∀ env topic p st,
      (splitOnSep '/' topic).getD 1 "" ≠ "dev" →
      (splitOnSep '/' topic).getD 1 "" ≠ "prod" →
      handle_heartbeat env topic p st = st ∧
      handle_device_info env topic p st = st ∧
      handle_event env topic p st = st) ∧
    ((handle_ota_start (sampleEnvAt 100) "norrtek-iot/staging/ota/start/D1"
        { product := some "ski-clock", platform := some "esp32",
          new_version := some "2.0.0" } {}).sessions.length = 1) ∧
    ((handle_ota_progress (sampleEnvAt 100) "norrtek-iot/staging/ota/progress/D1"
        { session_id := some "T1", progress := some 30 }
        { sessions := [staleSession] }).sessions.map OTAUpdateLog.status =
      ["downloading"]) ∧
    ((handle_ota_complete (sampleEnvAt 100) "norrtek-iot/staging/ota/complete/D1"
        { session_id := some "T1", status := some "success" }
        { sessions := [staleSession] }).sessions.map OTAUpdateLog.status =
      ["success"]) ∧
    ((handle_display_snapshot (sampleEnvAt 100) "norrtek-iot/staging/display/snapshot/D1"
        { mono := some "AA==" } { devices := [sampleDevice] }).snapshots.length = 1) := by
  refine ⟨?_, by decide, by decide, by decide, by decide⟩
  intro env topic p st h1 h2
  refine ⟨?_, ?_, ?_⟩
  · simp only [handle_heartbeat]
    split
    · rfl
    · rw [if_pos (fun h => h.elim h1 h2)]
  · simp only [handle_device_info]
    split
    · rfl
    · rw [if_pos (fun h => h.elim h1 h2)]
  · simp only [handle_event]
    split
    · rfl
    · rw [if_pos (fun h => h.elim h1 h2)]

/-- C3 witness: the validating handlers drop a qa-token message with no
state change. -/
theorem C3_env_rejection_amended_witness :
    handle_heartbeat (sampleEnvAt 100) "norrtek-iot/qa/heartbeat/D1"
        { rssi := some (-40) } { devices := [sampleDevice] } =
        { devices := [sampleDevice] } ∧
    handle_device_info (sampleEnvAt 100) "norrtek-iot/qa/heartbeat/D1"
        { rssi := some (-40) } { devices := [sampleDevice] } =
        { devices := [sampleDevice] } ∧
    handle_event (sampleEnvAt 100) "norrtek-iot/qa/heartbeat/D1"
        { rssi := some (-40) } { devices := [sampleDevice] } =
        { devices := [sampleDevice] } :=
  C3_env_rejection_amended.1 (sampleEnvAt 100) "norrtek-iot/qa/heartbeat/D1"
    { rssi := some (-40) } { devices := [sampleDevice] } (by decide) (by decide)

/-- C4: a heartbeat for a known device whose effective reported version
string-normalized-equals a session's new_version resolves EVERY in-flight
session of that device satisfying the equality to success with progress
100 and completion stamped — the statement holds at every index i, so all
matching in-flight sessions are resolved, not just the most recent. -/
theorem C4_heartbeat_resolves_all_matching (env : EngineEnv) (topic : String)
    (p : Payload) (st : DashState) (d0 : Device) (i : Nat) (s : OTAUpdateLog)
    (hlen : ¬ (splitOnSep '/' topic).length < 4)
    (henv : (splitOnSep '/' topic).getD 1 "" = "dev" ∨
      (splitOnSep '/' topic).getD 1 "" = "prod")
    (hdid : (splitOnSep '/' topic).getD 3 "" ≠ "")
    (hfind : st.devices.find?
      (fun d => d.device_id == (splitOnSep '/' topic).getD 3 "") = some d0)
    (heff : effectiveHeartbeatVersion p d0 ≠ "")
    (hs : st.sessions.get? i = some s)
    (hdev : s.device_id = some ((splitOnSep '/' topic).getD 3 ""))
    (hinf : isInflight s)
    (hmatch : lstripvV (effectiveHeartbeatVersion p d0) = lstripvV s.new_version) :
    (handle_heartbeat env topic p st).sessions.get? i =
      some { s with
        status := "success",
        completed_at := some env.now,
        download_progress := 100 } := by
  have hcollapse : (if truthyS p.version then p.version.getD ""
      else (if truthyS p.version then p.version.getD "" else d0.firmware_version)) =
      effectiveHeartbeatVersion p d0 := by
    unfold effectiveHeartbeatVersion
    by_cases h : truthyS p.version
    · rw [if_pos h, if_pos h]
    · rw [if_neg h, if_neg h]
  simp only [handle_heartbeat]
  rw [if_neg hlen, if_neg (not_not_intro henv), if_neg hdid, hfind]
  refine heartbeatTail_resolves env _ _ p.board p.version p.product p _ _ i s hs ?_ hdev hinf ?_
  · show (if truthyS p.version then p.version.getD ""
      else (if truthyS p.version then p.version.getD "" else d0.firmware_version)) ≠ ""
    rw [hcollapse]
    exact heff
  · show lstripvV (if truthyS p.version then p.version.getD ""
      else (if truthyS p.version then p.version.getD "" else d0.firmware_version)) =
      lstripvV s.new_version
    rw [hcollapse]
    exact hmatch

/-- C4 witness: a heartbeat reporting 2.0.0 resolves D1's concrete stuck
session to success. -/
theorem C4_heartbeat_resolves_all_matching_witness :
    (handle_heartbeat (sampleEnvAt 3000) "norrtek-iot/dev/heartbeat/D1"
      { version := some "2.0.0" }
      { devices := [sampleDevice], sessions := [staleSession] }).sessions.get? 0 =
      some { staleSession with
        status := "success",
        completed_at := some 3000,
        download_progress := 100 } :=
  C4_heartbeat_resolves_all_matching (sampleEnvAt 3000) "norrtek-iot/dev/heartbeat/D1"
    { version := some "2.0.0" } { devices := [sampleDevice], sessions := [staleSession] }
    sampleDevice 0 staleSession (by decide) (by decide) (by decide) (by decide)
    (by decide) rfl (by decide) (Or.inl rfl) (by decide)
